import Mathlib

/-!
Shallow embedding of src/flight/modules/StateEstimation/stateestimation.c
(LibrePilot state-estimation front end).

Modelling decisions:
- C float scalars are modelled as rationals; none of the verified claims
  depends on rounding, and the sanity predicate is what screens NaN and
  infinity out of the pipeline, so finite values suffice.
- The helpers coming from headers outside this repository are kept as
  explicit parameters: the per-scalar sanity predicate `sane`
  (spec 4.1: false on non-finite or out-of-range values, bounds are
  configuration), the cosine `cosf`, and the degree-to-radian conversion
  constant `d2r` (DEG2RAD multiplies by it; its true value is pi/180).
- The global mutable state (homeLocation, LLA2NEDM, updatedSensors) is
  passed explicitly and returned explicitly.
- The bitmask type sensorUpdates is modelled as Nat with the same bit
  values as the C enum.
-/

namespace StateEst

/-- Three C floats in a row, as used for gyr, acc, mag, pos, vel and Be. -/
abbrev Vec3 := ℚ × ℚ × ℚ

/-- Bit for the gyroscope channel, 1 <<< 0 in the C enum sensorUpdates. -/
def gyr_UPDATED : Nat := 1

/-- Bit for the accelerometer channel, 1 <<< 1. -/
def acc_UPDATED : Nat := 2

/-- Bit for the magnetometer channel, 1 <<< 2. -/
def mag_UPDATED : Nat := 4

/-- Bit for the GPS position channel, 1 <<< 3. -/
def pos_UPDATED : Nat := 8

/-- Bit for the GPS velocity channel, 1 <<< 4. -/
def vel_UPDATED : Nat := 16

/-- Bit for the barometer channel, 1 <<< 5. -/
def bar_UPDATED : Nat := 32

/-- Bit for the airspeed channel, 1 <<< 6. -/
def ias_UPDATED : Nat := 64

/-- The C macro ISSET(bitfield, bit): whether any bit of `bit` is set. -/
def ISSET (bitfield bit : Nat) : Bool := bitfield &&& bit != 0

/-- The C macro UNSET(bitfield, bit): clears the bits of `bit`.  On a
fixed-width integer the C code computes bitfield AND (NOT bit); on Nat the
same function is bitfield XOR (bitfield AND bit). -/
def UNSET (bitfield bit : Nat) : Nat := bitfield ^^^ (bitfield &&& bit)

/-- The struct stateEstimation: the per-cycle state snapshot. -/
structure stateEstimation where
  gyr : Vec3
  acc : Vec3
  mag : Vec3
  pos : Vec3
  vel : Vec3
  bar : ℚ
  ias : ℚ
  updated : Nat
deriving DecidableEq

/-- The struct stateFilter: one filter unit of the chain, a pair of an
init function and an update function; update returns the new snapshot
together with its int32 result code. -/
structure stateFilter where
  init : Unit → Int
  update : stateEstimation → stateEstimation × Int

/-- GPSPositionData, the fields read by this module. -/
structure GPSPositionData where
  Latitude : ℚ
  Longitude : ℚ
  Altitude : ℚ
  GeoidSeparation : ℚ
deriving DecidableEq

/-- HomeLocationData, the fields read by this module.  The field `Set`
models homeLocation.Set == HOMELOCATION_SET_TRUE. -/
structure HomeLocationData where
  Set : Bool
  Latitude : ℚ
  Longitude : ℚ
  Altitude : ℚ
  Be : Vec3
deriving DecidableEq

/-- The values the sensor UAVObjects hold when the cycle reads them with
the various GET calls. -/
structure SensorEnv where
  gyroSensor : Vec3
  accelSensor : Vec3
  magnetoSensor : Vec3
  gpsVelocity : Vec3
  baroAltitude : ℚ
  iasCalibratedAirspeed : ℚ
  iasSensorConnected : Bool
  gpsPosition : GPSPositionData
deriving DecidableEq

/-- The C macro DEG2RAD from the math headers outside this repository:
conversion from degrees to radians is multiplication by the constant
pi / 180, kept abstract as the parameter d2r. -/
def DEG2RAD (d2r x : ℚ) : ℚ := x * d2r

/-- getNED: convert a GPS LLA position into NED coordinates by a first
order Taylor expansion around the home coordinates.  Latitude and
Longitude are stored in units of 1e-7 degree, hence the division by
10.0e6 = 1e7.  The globals homeLocation and LLA2NEDM are explicit
arguments. -/
def getNED (d2r : ℚ) (homeLocation : HomeLocationData) (LLA2NEDM : Vec3)
    (gpsPosition : GPSPositionData) : Vec3 :=
  let dL : Vec3 :=
    (DEG2RAD d2r ((gpsPosition.Latitude - homeLocation.Latitude) / 10000000),
     DEG2RAD d2r ((gpsPosition.Longitude - homeLocation.Longitude) / 10000000),
     gpsPosition.Altitude + gpsPosition.GeoidSeparation - homeLocation.Altitude)
  (LLA2NEDM.1 * dL.1, LLA2NEDM.2.1 * dL.2.1, LLA2NEDM.2.2 * dL.2.2)

/-- The matrix computed inside settingsUpdatedCb when the home location
passes all sanity checks: lat = DEG2RAD(Latitude / 1e7), alt = Altitude,
LLA2NEDM = (alt + 6.378137e6, cos(lat) * (alt + 6.378137e6), -1). -/
def computeLLA2NEDM (cosf : ℚ → ℚ) (d2r : ℚ) (homeLocation : HomeLocationData) : Vec3 :=
  let lat := DEG2RAD d2r (homeLocation.Latitude / 10000000)
  let alt := homeLocation.Altitude
  (alt + 6378137, cosf lat * (alt + 6378137), -1)

/-- settingsUpdatedCb, restricted to its effect on the global LLA2NEDM:
if Latitude, Longitude, Altitude and the three components of Be are all
sane, the matrix is recomputed from the home location; otherwise the old
matrix is kept.  (The trailing bodyless conditional of the C function is
an incomplete fragment with no semantics and is not modelled.) -/
def settingsUpdatedCb (sane : ℚ → Bool) (cosf : ℚ → ℚ) (d2r : ℚ)
    (homeLocation : HomeLocationData) (LLA2NEDM : Vec3) : Vec3 :=
  if sane homeLocation.Latitude && sane homeLocation.Longitude &&
     sane homeLocation.Altitude && sane homeLocation.Be.1 &&
     sane homeLocation.Be.2.1 && sane homeLocation.Be.2.2 then
    computeLLA2NEDM cosf d2r homeLocation
  else
    LLA2NEDM

/-- The macro SANITYCHECK3(sensorname, shortname, a1, a2, a3): if the
channel bit is among the drained updates, read the three components; if
all three are sane write them into the snapshot, otherwise clear the
channel bit for this cycle.  The concrete field written is passed as the
function `write`. -/
def SANITYCHECK3 (sane : ℚ → Bool) (bit : Nat) (s : Vec3)
    (write : stateEstimation → Vec3 → stateEstimation)
    (sensors : stateEstimation) : stateEstimation :=
  if ISSET sensors.updated bit then
    if sane s.1 && sane s.2.1 && sane s.2.2 then
      write sensors s
    else
      { sensors with updated := UNSET sensors.updated bit }
  else
    sensors

/-- The macro SANITYCHECK1(sensorname, shortname, a1, EXTRACHECK): the
one-component variant with an extra boolean gate. -/
def SANITYCHECK1 (sane : ℚ → Bool) (bit : Nat) (a1 : ℚ) (EXTRACHECK : Bool)
    (write : stateEstimation → ℚ → stateEstimation)
    (sensors : stateEstimation) : stateEstimation :=
  if ISSET sensors.updated bit then
    if sane a1 && EXTRACHECK then
      write sensors a1
    else
      { sensors with updated := UNSET sensors.updated bit }
  else
    sensors

/-- The position block of StateEstimationCb: admitted only when the home
location is set, Latitude, Longitude and Altitude are sane, and the
degeneracy test passes.  The C source tests fabsf(s.Latitude) > 1e-5f
three times in the disjunction (instead of Latitude, Longitude, Altitude
once each); the embedding reproduces that text faithfully. -/
def positionCheck (sane : ℚ → Bool) (d2r : ℚ) (homeLocation : HomeLocationData)
    (LLA2NEDM : Vec3) (gpsPosition : GPSPositionData)
    (sensors : stateEstimation) : stateEstimation :=
  if ISSET sensors.updated pos_UPDATED then
    let s := gpsPosition
    if homeLocation.Set && sane s.Latitude && sane s.Longitude && sane s.Altitude &&
       (decide (|s.Latitude| > 1 / 100000) || decide (|s.Latitude| > 1 / 100000) ||
        decide (|s.Latitude| > 1 / 100000)) then
      { sensors with pos := getNED d2r homeLocation LLA2NEDM s }
    else
      { sensors with updated := UNSET sensors.updated pos_UPDATED }
  else
    sensors

/-- Lines 178 to 179 of the cycle: sensors.updated = updatedSensors;
updatedSensors ^= sensors.updated.  First component: the drained mask the
cycle works with; second component: the shared dirty set afterwards. -/
def drainForCycle (updatedSensors : Nat) : Nat × Nat :=
  let drained := updatedSensors
  (drained, updatedSensors ^^^ drained)

/-- SANITYCHECK3(GyroSensor, gyr, x, y, z). -/
def checkGyr (sane : ℚ → Bool) (env : SensorEnv) (st : stateEstimation) : stateEstimation :=
  SANITYCHECK3 sane gyr_UPDATED env.gyroSensor (fun st v => { st with gyr := v }) st

/-- SANITYCHECK3(AccelSensor, acc, x, y, z). -/
def checkAcc (sane : ℚ → Bool) (env : SensorEnv) (st : stateEstimation) : stateEstimation :=
  SANITYCHECK3 sane acc_UPDATED env.accelSensor (fun st v => { st with acc := v }) st

/-- SANITYCHECK3(MagnetoSensor, mag, x, y, z). -/
def checkMag (sane : ℚ → Bool) (env : SensorEnv) (st : stateEstimation) : stateEstimation :=
  SANITYCHECK3 sane mag_UPDATED env.magnetoSensor (fun st v => { st with mag := v }) st

/-- SANITYCHECK3(GPSVelocity, vel, North, East, Down). -/
def checkVel (sane : ℚ → Bool) (env : SensorEnv) (st : stateEstimation) : stateEstimation :=
  SANITYCHECK3 sane vel_UPDATED env.gpsVelocity (fun st v => { st with vel := v }) st

/-- SANITYCHECK1(BaroSensor, bar, Altitude, 1). -/
def checkBar (sane : ℚ → Bool) (env : SensorEnv) (st : stateEstimation) : stateEstimation :=
  SANITYCHECK1 sane bar_UPDATED env.baroAltitude true (fun st v => { st with bar := v }) st

/-- SANITYCHECK1(AirspeedSensor, ias, CalibratedAirspeed,
s.SensorConnected == AIRSPEEDSENSOR_SENSORCONNECTED_TRUE). -/
def checkIas (sane : ℚ → Bool) (env : SensorEnv) (st : stateEstimation) : stateEstimation :=
  SANITYCHECK1 sane ias_UPDATED env.iasCalibratedAirspeed env.iasSensorConnected
    (fun st v => { st with ias := v }) st

/-- The position block applied to the GPS position the cycle reads. -/
def checkPos (sane : ℚ → Bool) (d2r : ℚ) (homeLocation : HomeLocationData)
    (LLA2NEDM : Vec3) (env : SensorEnv) (st : stateEstimation) : stateEstimation :=
  positionCheck sane d2r homeLocation LLA2NEDM env.gpsPosition st

/-- The admission condition of the position block, as the C source writes
it. -/
def posAdmit (sane : ℚ → Bool) (homeLocation : HomeLocationData)
    (s : GPSPositionData) : Bool :=
  homeLocation.Set && sane s.Latitude && sane s.Longitude && sane s.Altitude &&
    (decide (|s.Latitude| > 1 / 100000) || decide (|s.Latitude| > 1 / 100000) ||
     decide (|s.Latitude| > 1 / 100000))

/-- What one run of StateEstimationCb produces: the final snapshot, the
shared dirty set after the drain, whether AlarmsSet(ATTITUDE, WARNING)
was called at cycle start, and whether AlarmsClear(ATTITUDE) was called
at cycle end. -/
structure CycleResult where
  sensors : stateEstimation
  updatedSensorsAfter : Nat
  alarmRaised : Bool
  alarmCleared : Bool
deriving DecidableEq

/-- StateEstimationCb: one estimation cycle over the sensor snapshot
build.  The local struct `sensors` is uninitialized in C, so its initial
field contents are the explicit argument sensors0.  The alarm test at
cycle start reads the shared dirty set (the C text writes the identifier
updatedSensor for the global updatedSensors). -/
def StateEstimationCb (sane : ℚ → Bool) (d2r : ℚ) (env : SensorEnv)
    (homeLocation : HomeLocationData) (LLA2NEDM : Vec3)
    (updatedSensors : Nat) (sensors0 : stateEstimation) : CycleResult :=
  let alarm : Bool := updatedSensors == 0
  let d := drainForCycle updatedSensors
  let s1 : stateEstimation := { sensors0 with updated := d.1 }
  let s2 := checkGyr sane env s1
  let s3 := checkAcc sane env s2
  let s4 := checkMag sane env s3
  let s5 := checkVel sane env s4
  let s6 := checkBar sane env s5
  let s7 := checkIas sane env s6
  let s8 := checkPos sane d2r homeLocation LLA2NEDM env s7
  { sensors := s8
    updatedSensorsAfter := d.2
    alarmRaised := alarm
    alarmCleared := !alarm }

/-- Modelled from the spec: the chain traversal itself is only a comment
placeholder in the source (line 225, "traverse filtering chain"), and
StateEstimationStart builds no queue from the initialized filters, so the
traversal is taken from spec 4.3: every unit of the ordered chain is run
once per cycle, strictly in chain order, each update reading and mutating
the shared snapshot in place; a failing result code does not abort the
traversal. -/
def runFilterChain (chain : List stateFilter) (state : stateEstimation) : stateEstimation :=
  chain.foldl (fun st f => (f.update st).1) state

/-- One estimation cycle with the chain traversal of spec 4.3 inserted at
its placeholder position: after the snapshot build, before the alarm
clear. -/
def StateEstimationCbWithChain (chain : List stateFilter) (sane : ℚ → Bool)
    (d2r : ℚ) (env : SensorEnv) (homeLocation : HomeLocationData)
    (LLA2NEDM : Vec3) (updatedSensors : Nat) (sensors0 : stateEstimation) : CycleResult :=
  let r := StateEstimationCb sane d2r env homeLocation LLA2NEDM updatedSensors sensors0
  { r with sensors := runFilterChain chain r.sensors }

/-- The distinct UAVObject handles compared against ev.obj in
sensorUpdatedCb. -/
inductive SensorObjHandle where
  | gyroSensor
  | accelSensor
  | magnetoSensor
  | gpsPosition
  | gpsVelocity
  | baroSensor
  | airspeedSensor
deriving DecidableEq

/-- UAVObjEvent, restricted to the field this module reads. -/
structure UAVObjEvent where
  obj : SensorObjHandle
deriving DecidableEq

/-- The channel bit ORed into updatedSensors for each object handle. -/
def bitOf : SensorObjHandle → Nat
  | .gyroSensor => gyr_UPDATED
  | .accelSensor => acc_UPDATED
  | .magnetoSensor => mag_UPDATED
  | .gpsPosition => pos_UPDATED
  | .gpsVelocity => vel_UPDATED
  | .baroSensor => bar_UPDATED
  | .airspeedSensor => ias_UPDATED

/-- The bit position of each object handle, so that bitOf h = 2 ^ idxOf h. -/
def idxOf : SensorObjHandle → Nat
  | .gyroSensor => 0
  | .accelSensor => 1
  | .magnetoSensor => 2
  | .gpsPosition => 3
  | .gpsVelocity => 4
  | .baroSensor => 5
  | .airspeedSensor => 6

/-- sensorUpdatedCb: a null event returns early; otherwise each of the
seven handle comparisons ORs its channel bit in, then the estimation
callback is dispatched.  First component: the dirty set afterwards;
second component: how many times DelayedCallbackDispatch was called. -/
def sensorUpdatedCb (ev : Option UAVObjEvent) (updatedSensors : Nat) : Nat × Nat :=
  match ev with
  | none => (updatedSensors, 0)
  | some ev =>
    let u0 := updatedSensors
    let u1 := if ev.obj = SensorObjHandle.gyroSensor then u0 ||| gyr_UPDATED else u0
    let u2 := if ev.obj = SensorObjHandle.accelSensor then u1 ||| acc_UPDATED else u1
    let u3 := if ev.obj = SensorObjHandle.magnetoSensor then u2 ||| mag_UPDATED else u2
    let u4 := if ev.obj = SensorObjHandle.gpsPosition then u3 ||| pos_UPDATED else u3
    let u5 := if ev.obj = SensorObjHandle.gpsVelocity then u4 ||| vel_UPDATED else u4
    let u6 := if ev.obj = SensorObjHandle.baroSensor then u5 ||| bar_UPDATED else u5
    let u7 := if ev.obj = SensorObjHandle.airspeedSensor then u6 ||| ias_UPDATED else u6
    (u7, 1)

/-- Folding a list of non-null sensor notifications over the dirty set. -/
def applyUpdates (es : List UAVObjEvent) (updatedSensors : Nat) : Nat :=
  es.foldl (fun u e => (sensorUpdatedCb (some e) u).1) updatedSensors

/-- Index over the four 3-component sensor channels that go through
SANITYCHECK3. -/
inductive Chan3 where
  | gyr
  | acc
  | mag
  | vel
deriving DecidableEq

/-- Channel bit of a 3-component channel. -/
def chan3Bit : Chan3 → Nat
  | .gyr => gyr_UPDATED
  | .acc => acc_UPDATED
  | .mag => mag_UPDATED
  | .vel => vel_UPDATED

/-- Raw sample of a 3-component channel as held by its UAVObject. -/
def chan3Sample (env : SensorEnv) : Chan3 → Vec3
  | .gyr => env.gyroSensor
  | .acc => env.accelSensor
  | .mag => env.magnetoSensor
  | .vel => env.gpsVelocity

/-- Snapshot field of a 3-component channel. -/
def chan3Field (st : stateEstimation) : Chan3 → Vec3
  | .gyr => st.gyr
  | .acc => st.acc
  | .mag => st.mag
  | .vel => st.vel

/-- All three scalar components of a sample pass the sanity check. -/
def saneVec3 (sane : ℚ → Bool) (v : Vec3) : Bool :=
  sane v.1 && sane v.2.1 && sane v.2.2

/-- Transcribed from the words of the spec (section 4.2) for comparison
with getNED: with positions given in degrees, dLat and dLon are the
position-minus-home latitude and longitude differences converted to
radians, dAlt is position altitude plus geoid separation minus home
altitude, and the output is the elementwise product of (dLat, dLon, dAlt)
with the matrix (Rn, Rn * cos(latHome), -1), where Rn is the Earth mean
radius 6.378137e6 plus home altitude. -/
def NED_claim (cosf : ℚ → ℚ) (d2r : ℚ)
    (latDeg lonDeg altPos geoid latHomeDeg altHome : ℚ) (lonHomeDeg : ℚ) : Vec3 :=
  let Rn := 6378137 + altHome
  let dLat := (latDeg - latHomeDeg) * d2r
  let dLon := (lonDeg - lonHomeDeg) * d2r
  let dAlt := altPos + geoid - altHome
  (Rn * dLat, Rn * cosf (latHomeDeg * d2r) * dLon, -dAlt)

/-- A concrete sensor environment used to evaluate theorems on closed
inputs. -/
def envW : SensorEnv :=
  { gyroSensor := (1, 2, 3)
    accelSensor := (4, 5, 6)
    magnetoSensor := (7, 8, 9)
    gpsVelocity := (1, 1, 1)
    baroAltitude := 10
    iasCalibratedAirspeed := 20
    iasSensorConnected := true
    gpsPosition :=
      { Latitude := 450000000, Longitude := 100000000, Altitude := 100,
        GeoidSeparation := 2 } }

/-- A concrete valid home location (45 degrees north, altitude 50). -/
def homeW : HomeLocationData :=
  { Set := true, Latitude := 450000000, Longitude := 100000000, Altitude := 50,
    Be := (1, 2, 3) }

/-- A concrete initial content of the uninitialized snapshot struct. -/
def st0W : stateEstimation :=
  { gyr := (0, 0, 0), acc := (0, 0, 0), mag := (0, 0, 0), pos := (7, 8, 9),
    vel := (0, 0, 0), bar := 0, ias := 0, updated := 0 }

/-- A sensor environment whose GPS position sits exactly on the equator
(Latitude = 0) with a far-from-zero Longitude and Altitude: the geodetic
coordinate has non-zero magnitude, yet the position block of the C source
rejects it. -/
def envC2 : SensorEnv :=
  { envW with
    gpsPosition :=
      { Latitude := 0, Longitude := 500000000, Altitude := 100,
        GeoidSeparation := 0 } }

/-! Helper lemmas about the bitmask primitives. -/

theorem ISSET_two_pow (b i : Nat) : ISSET b (2 ^ i) = b.testBit i := by
  unfold ISSET
  rw [Nat.and_two_pow]
  cases h : b.testBit i <;> simp [h]

theorem testBit_UNSET (b y i : Nat) :
    (UNSET b y).testBit i = (b.testBit i && !(y.testBit i)) := by
  unfold UNSET
  rw [Nat.testBit_xor, Nat.testBit_and]
  cases b.testBit i <;> cases y.testBit i <;> rfl

theorem drainForCycle_fst (u : Nat) : (drainForCycle u).1 = u := rfl

theorem drainForCycle_snd (u : Nat) : (drainForCycle u).2 = 0 := Nat.xor_self u

/-! Frame lemmas: each snapshot-build stage only writes its own field and
only ever clears its own channel bit. -/

theorem checkAcc_gyr (sane : ℚ → Bool) (env : SensorEnv) (st : stateEstimation) :
    (checkAcc sane env st).gyr = st.gyr := by
  unfold checkAcc SANITYCHECK3
  split
  · split <;> rfl
  · rfl

theorem checkMag_gyr (sane : ℚ → Bool) (env : SensorEnv) (st : stateEstimation) :
    (checkMag sane env st).gyr = st.gyr := by
  unfold checkMag SANITYCHECK3
  split
  · split <;> rfl
  · rfl

theorem checkVel_gyr (sane : ℚ → Bool) (env : SensorEnv) (st : stateEstimation) :
    (checkVel sane env st).gyr = st.gyr := by
  unfold checkVel SANITYCHECK3
  split
  · split <;> rfl
  · rfl

theorem checkBar_gyr (sane : ℚ → Bool) (env : SensorEnv) (st : stateEstimation) :
    (checkBar sane env st).gyr = st.gyr := by
  unfold checkBar SANITYCHECK1
  split
  · split <;> rfl
  · rfl

theorem checkIas_gyr (sane : ℚ → Bool) (env : SensorEnv) (st : stateEstimation) :
    (checkIas sane env st).gyr = st.gyr := by
  unfold checkIas SANITYCHECK1
  split
  · split <;> rfl
  · rfl

theorem checkPos_gyr (sane : ℚ → Bool) (d2r : ℚ) (home : HomeLocationData)
    (M : Vec3) (env : SensorEnv) (st : stateEstimation) :
    (checkPos sane d2r home M env st).gyr = st.gyr := by
  simp only [checkPos, positionCheck]
  split
  · split <;> rfl
  · rfl

theorem checkMag_acc (sane : ℚ → Bool) (env : SensorEnv) (st : stateEstimation) :
    (checkMag sane env st).acc = st.acc := by
  unfold checkMag SANITYCHECK3
  split
  · split <;> rfl
  · rfl

theorem checkVel_acc (sane : ℚ → Bool) (env : SensorEnv) (st : stateEstimation) :
    (checkVel sane env st).acc = st.acc := by
  unfold checkVel SANITYCHECK3
  split
  · split <;> rfl
  · rfl

theorem checkBar_acc (sane : ℚ → Bool) (env : SensorEnv) (st : stateEstimation) :
    (checkBar sane env st).acc = st.acc := by
  unfold checkBar SANITYCHECK1
  split
  · split <;> rfl
  · rfl

theorem checkIas_acc (sane : ℚ → Bool) (env : SensorEnv) (st : stateEstimation) :
    (checkIas sane env st).acc = st.acc := by
  unfold checkIas SANITYCHECK1
  split
  · split <;> rfl
  · rfl

theorem checkPos_acc (sane : ℚ → Bool) (d2r : ℚ) (home : HomeLocationData)
    (M : Vec3) (env : SensorEnv) (st : stateEstimation) :
    (checkPos sane d2r home M env st).acc = st.acc := by
  simp only [checkPos, positionCheck]
  split
  · split <;> rfl
  · rfl

theorem checkVel_mag (sane : ℚ → Bool) (env : SensorEnv) (st : stateEstimation) :
    (checkVel sane env st).mag = st.mag := by
  unfold checkVel SANITYCHECK3
  split
  · split <;> rfl
  · rfl

theorem checkBar_mag (sane : ℚ → Bool) (env : SensorEnv) (st : stateEstimation) :
    (checkBar sane env st).mag = st.mag := by
  unfold checkBar SANITYCHECK1
  split
  · split <;> rfl
  · rfl

theorem checkIas_mag (sane : ℚ → Bool) (env : SensorEnv) (st : stateEstimation) :
    (checkIas sane env st).mag = st.mag := by
  unfold checkIas SANITYCHECK1
  split
  · split <;> rfl
  · rfl

theorem checkPos_mag (sane : ℚ → Bool) (d2r : ℚ) (home : HomeLocationData)
    (M : Vec3) (env : SensorEnv) (st : stateEstimation) :
    (checkPos sane d2r home M env st).mag = st.mag := by
  simp only [checkPos, positionCheck]
  split
  · split <;> rfl
  · rfl

theorem checkBar_vel (sane : ℚ → Bool) (env : SensorEnv) (st : stateEstimation) :
    (checkBar sane env st).vel = st.vel := by
  unfold checkBar SANITYCHECK1
  split
  · split <;> rfl
  · rfl

theorem checkIas_vel (sane : ℚ → Bool) (env : SensorEnv) (st : stateEstimation) :
    (checkIas sane env st).vel = st.vel := by
  unfold checkIas SANITYCHECK1
  split
  · split <;> rfl
  · rfl

theorem checkPos_vel (sane : ℚ → Bool) (d2r : ℚ) (home : HomeLocationData)
    (M : Vec3) (env : SensorEnv) (st : stateEstimation) :
    (checkPos sane d2r home M env st).vel = st.vel := by
  simp only [checkPos, positionCheck]
  split
  · split <;> rfl
  · rfl

theorem checkPos_ias (sane : ℚ → Bool) (d2r : ℚ) (home : HomeLocationData)
    (M : Vec3) (env : SensorEnv) (st : stateEstimation) :
    (checkPos sane d2r home M env st).ias = st.ias := by
  simp only [checkPos, positionCheck]
  split
  · split <;> rfl
  · rfl

theorem checkGyr_pos (sane : ℚ → Bool) (env : SensorEnv) (st : stateEstimation) :
    (checkGyr sane env st).pos = st.pos := by
  unfold checkGyr SANITYCHECK3
  split
  · split <;> rfl
  · rfl

theorem checkAcc_pos (sane : ℚ → Bool) (env : SensorEnv) (st : stateEstimation) :
    (checkAcc sane env st).pos = st.pos := by
  unfold checkAcc SANITYCHECK3
  split
  · split <;> rfl
  · rfl

theorem checkMag_pos (sane : ℚ → Bool) (env : SensorEnv) (st : stateEstimation) :
    (checkMag sane env st).pos = st.pos := by
  unfold checkMag SANITYCHECK3
  split
  · split <;> rfl
  · rfl

theorem checkVel_pos (sane : ℚ → Bool) (env : SensorEnv) (st : stateEstimation) :
    (checkVel sane env st).pos = st.pos := by
  unfold checkVel SANITYCHECK3
  split
  · split <;> rfl
  · rfl

theorem checkBar_pos (sane : ℚ → Bool) (env : SensorEnv) (st : stateEstimation) :
    (checkBar sane env st).pos = st.pos := by
  unfold checkBar SANITYCHECK1
  split
  · split <;> rfl
  · rfl

theorem checkIas_pos (sane : ℚ → Bool) (env : SensorEnv) (st : stateEstimation) :
    (checkIas sane env st).pos = st.pos := by
  unfold checkIas SANITYCHECK1
  split
  · split <;> rfl
  · rfl

theorem checkGyr_acc (sane : ℚ → Bool) (env : SensorEnv) (st : stateEstimation) :
    (checkGyr sane env st).acc = st.acc := by
  unfold checkGyr SANITYCHECK3
  split
  · split <;> rfl
  · rfl

theorem checkGyr_mag (sane : ℚ → Bool) (env : SensorEnv) (st : stateEstimation) :
    (checkGyr sane env st).mag = st.mag := by
  unfold checkGyr SANITYCHECK3
  split
  · split <;> rfl
  · rfl

theorem checkAcc_mag (sane : ℚ → Bool) (env : SensorEnv) (st : stateEstimation) :
    (checkAcc sane env st).mag = st.mag := by
  unfold checkAcc SANITYCHECK3
  split
  · split <;> rfl
  · rfl

theorem checkGyr_vel (sane : ℚ → Bool) (env : SensorEnv) (st : stateEstimation) :
    (checkGyr sane env st).vel = st.vel := by
  unfold checkGyr SANITYCHECK3
  split
  · split <;> rfl
  · rfl

theorem checkAcc_vel (sane : ℚ → Bool) (env : SensorEnv) (st : stateEstimation) :
    (checkAcc sane env st).vel = st.vel := by
  unfold checkAcc SANITYCHECK3
  split
  · split <;> rfl
  · rfl

theorem checkMag_vel (sane : ℚ → Bool) (env : SensorEnv) (st : stateEstimation) :
    (checkMag sane env st).vel = st.vel := by
  unfold checkMag SANITYCHECK3
  split
  · split <;> rfl
  · rfl

theorem checkGyr_ias (sane : ℚ → Bool) (env : SensorEnv) (st : stateEstimation) :
    (checkGyr sane env st).ias = st.ias := by
  unfold checkGyr SANITYCHECK3
  split
  · split <;> rfl
  · rfl

theorem checkAcc_ias (sane : ℚ → Bool) (env : SensorEnv) (st : stateEstimation) :
    (checkAcc sane env st).ias = st.ias := by
  unfold checkAcc SANITYCHECK3
  split
  · split <;> rfl
  · rfl

theorem checkMag_ias (sane : ℚ → Bool) (env : SensorEnv) (st : stateEstimation) :
    (checkMag sane env st).ias = st.ias := by
  unfold checkMag SANITYCHECK3
  split
  · split <;> rfl
  · rfl

theorem checkVel_ias (sane : ℚ → Bool) (env : SensorEnv) (st : stateEstimation) :
    (checkVel sane env st).ias = st.ias := by
  unfold checkVel SANITYCHECK3
  split
  · split <;> rfl
  · rfl

theorem checkBar_ias (sane : ℚ → Bool) (env : SensorEnv) (st : stateEstimation) :
    (checkBar sane env st).ias = st.ias := by
  unfold checkBar SANITYCHECK1
  split
  · split <;> rfl
  · rfl

/-! Bit-preservation lemmas: a stage never changes the dirty bit of
another channel. -/

theorem checkGyr_testBit (sane : ℚ → Bool) (env : SensorEnv) (st : stateEstimation)
    (i : Nat) (h : i ≠ 0) :
    (checkGyr sane env st).updated.testBit i = st.updated.testBit i := by
  unfold checkGyr SANITYCHECK3
  split
  · split
    · rfl
    · dsimp only
      rw [testBit_UNSET]
      rw [show gyr_UPDATED.testBit i = false from
        Nat.testBit_two_pow_of_ne (fun e => h e.symm)]
      simp
  · rfl

theorem checkAcc_testBit (sane : ℚ → Bool) (env : SensorEnv) (st : stateEstimation)
    (i : Nat) (h : i ≠ 1) :
    (checkAcc sane env st).updated.testBit i = st.updated.testBit i := by
  unfold checkAcc SANITYCHECK3
  split
  · split
    · rfl
    · dsimp only
      rw [testBit_UNSET]
      rw [show acc_UPDATED.testBit i = false from
        Nat.testBit_two_pow_of_ne (fun e => h e.symm)]
      simp
  · rfl

theorem checkMag_testBit (sane : ℚ → Bool) (env : SensorEnv) (st : stateEstimation)
    (i : Nat) (h : i ≠ 2) :
    (checkMag sane env st).updated.testBit i = st.updated.testBit i := by
  unfold checkMag SANITYCHECK3
  split
  · split
    · rfl
    · dsimp only
      rw [testBit_UNSET]
      rw [show mag_UPDATED.testBit i = false from
        Nat.testBit_two_pow_of_ne (fun e => h e.symm)]
      simp
  · rfl

theorem checkVel_testBit (sane : ℚ → Bool) (env : SensorEnv) (st : stateEstimation)
    (i : Nat) (h : i ≠ 4) :
    (checkVel sane env st).updated.testBit i = st.updated.testBit i := by
  unfold checkVel SANITYCHECK3
  split
  · split
    · rfl
    · dsimp only
      rw [testBit_UNSET]
      rw [show vel_UPDATED.testBit i = false from
        Nat.testBit_two_pow_of_ne (fun e => h e.symm)]
      simp
  · rfl

theorem checkBar_testBit (sane : ℚ → Bool) (env : SensorEnv) (st : stateEstimation)
    (i : Nat) (h : i ≠ 5) :
    (checkBar sane env st).updated.testBit i = st.updated.testBit i := by
  unfold checkBar SANITYCHECK1
  split
  · split
    · rfl
    · dsimp only
      rw [testBit_UNSET]
      rw [show bar_UPDATED.testBit i = false from
        Nat.testBit_two_pow_of_ne (fun e => h e.symm)]
      simp
  · rfl

theorem checkIas_testBit (sane : ℚ → Bool) (env : SensorEnv) (st : stateEstimation)
    (i : Nat) (h : i ≠ 6) :
    (checkIas sane env st).updated.testBit i = st.updated.testBit i := by
  unfold checkIas SANITYCHECK1
  split
  · split
    · rfl
    · dsimp only
      rw [testBit_UNSET]
      rw [show ias_UPDATED.testBit i = false from
        Nat.testBit_two_pow_of_ne (fun e => h e.symm)]
      simp
  · rfl

theorem checkPos_testBit (sane : ℚ → Bool) (d2r : ℚ) (home : HomeLocationData)
    (M : Vec3) (env : SensorEnv) (st : stateEstimation)
    (i : Nat) (h : i ≠ 3) :
    (checkPos sane d2r home M env st).updated.testBit i = st.updated.testBit i := by
  simp only [checkPos, positionCheck]
  split
  · split
    · rfl
    · dsimp only
      rw [testBit_UNSET]
      rw [show pos_UPDATED.testBit i = false from
        Nat.testBit_two_pow_of_ne (fun e => h e.symm)]
      simp
  · rfl

/-! Per-channel characterization of one estimation cycle: the final
value and the final dirty bit of every gated channel. -/

theorem cycle_gyr (sane : ℚ → Bool) (d2r : ℚ) (env : SensorEnv)
    (home : HomeLocationData) (M : Vec3) (u : Nat) (st0 : stateEstimation) :
    (StateEstimationCb sane d2r env home M u st0).sensors.gyr =
      if ISSET u gyr_UPDATED && saneVec3 sane env.gyroSensor then env.gyroSensor
      else st0.gyr := by
  simp only [StateEstimationCb, drainForCycle_fst]
  rw [checkPos_gyr sane d2r home M env _,
    checkIas_gyr sane env _,
    checkBar_gyr sane env _,
    checkVel_gyr sane env _,
    checkMag_gyr sane env _,
    checkAcc_gyr sane env _]
  unfold checkGyr SANITYCHECK3 saneVec3
  dsimp only
  cases h1 : ISSET u gyr_UPDATED <;>
    cases h2 : sane env.gyroSensor.1 && sane env.gyroSensor.2.1 && sane env.gyroSensor.2.2 <;>
    simp [h1, h2]

theorem cycle_gyr_bit (sane : ℚ → Bool) (d2r : ℚ) (env : SensorEnv)
    (home : HomeLocationData) (M : Vec3) (u : Nat) (st0 : stateEstimation) :
    ISSET (StateEstimationCb sane d2r env home M u st0).sensors.updated gyr_UPDATED =
      (ISSET u gyr_UPDATED && saneVec3 sane env.gyroSensor) := by
  have hL : ISSET (StateEstimationCb sane d2r env home M u st0).sensors.updated gyr_UPDATED
      = (StateEstimationCb sane d2r env home M u st0).sensors.updated.testBit 0 :=
    ISSET_two_pow _ 0
  have hR : ISSET u gyr_UPDATED = u.testBit 0 := ISSET_two_pow u 0
  rw [hL, hR]
  simp only [StateEstimationCb, drainForCycle_fst]
  rw [checkPos_testBit sane d2r home M env _ 0 (by omega),
    checkIas_testBit sane env _ 0 (by omega),
    checkBar_testBit sane env _ 0 (by omega),
    checkVel_testBit sane env _ 0 (by omega),
    checkMag_testBit sane env _ 0 (by omega),
    checkAcc_testBit sane env _ 0 (by omega)]
  have gbit : ({ st0 with updated := u }).updated.testBit 0
      = u.testBit 0 := by
    rfl
  have ebit : ISSET ({ st0 with updated := u }).updated gyr_UPDATED
      = u.testBit 0 := by
    have h1 : ISSET ({ st0 with updated := u }).updated gyr_UPDATED
        = ({ st0 with updated := u }).updated.testBit 0 :=
      ISSET_two_pow _ 0
    rw [h1, gbit]
  have bself : (gyr_UPDATED).testBit 0 = true := by decide
  have hun : ∀ b : Nat, UNSET b gyr_UPDATED % 2 = 0 := by
    intro b
    have hb : (UNSET b gyr_UPDATED).testBit 0 = false := by
      rw [testBit_UNSET, bself]
      cases b.testBit 0 <;> rfl
    rw [Nat.testBit_zero] at hb
    simp only [decide_eq_false_iff_not] at hb
    omega
  unfold checkGyr SANITYCHECK3 saneVec3
  dsimp only
  rw [ebit]
  cases h1 : u.testBit 0 <;>
    cases h2 : sane env.gyroSensor.1 && sane env.gyroSensor.2.1 && sane env.gyroSensor.2.2 <;>
    simp [h1, h2, gbit, testBit_UNSET, bself, hun]

theorem cycle_acc (sane : ℚ → Bool) (d2r : ℚ) (env : SensorEnv)
    (home : HomeLocationData) (M : Vec3) (u : Nat) (st0 : stateEstimation) :
    (StateEstimationCb sane d2r env home M u st0).sensors.acc =
      if ISSET u acc_UPDATED && saneVec3 sane env.accelSensor then env.accelSensor
      else st0.acc := by
  simp only [StateEstimationCb, drainForCycle_fst]
  rw [checkPos_acc sane d2r home M env _,
    checkIas_acc sane env _,
    checkBar_acc sane env _,
    checkVel_acc sane env _,
    checkMag_acc sane env _]
  have efld : (checkGyr sane env ({ st0 with updated := u })).acc = st0.acc := by
    rw [checkGyr_acc sane env _]
  have ebit : ISSET (checkGyr sane env ({ st0 with updated := u })).updated acc_UPDATED
      = ISSET u acc_UPDATED := by
    have h1 : ISSET (checkGyr sane env ({ st0 with updated := u })).updated acc_UPDATED
        = (checkGyr sane env ({ st0 with updated := u })).updated.testBit 1 :=
      ISSET_two_pow _ 1
    have h2 : ISSET u acc_UPDATED = u.testBit 1 := ISSET_two_pow u 1
    rw [h1, h2,
      checkGyr_testBit sane env _ 1 (by omega)]
  unfold checkAcc SANITYCHECK3 saneVec3
  dsimp only
  rw [ebit, efld]
  cases h1 : ISSET u acc_UPDATED <;>
    cases h2 : sane env.accelSensor.1 && sane env.accelSensor.2.1 && sane env.accelSensor.2.2 <;>
    simp [h1, h2, efld]

theorem cycle_acc_bit (sane : ℚ → Bool) (d2r : ℚ) (env : SensorEnv)
    (home : HomeLocationData) (M : Vec3) (u : Nat) (st0 : stateEstimation) :
    ISSET (StateEstimationCb sane d2r env home M u st0).sensors.updated acc_UPDATED =
      (ISSET u acc_UPDATED && saneVec3 sane env.accelSensor) := by
  have hL : ISSET (StateEstimationCb sane d2r env home M u st0).sensors.updated acc_UPDATED
      = (StateEstimationCb sane d2r env home M u st0).sensors.updated.testBit 1 :=
    ISSET_two_pow _ 1
  have hR : ISSET u acc_UPDATED = u.testBit 1 := ISSET_two_pow u 1
  rw [hL, hR]
  simp only [StateEstimationCb, drainForCycle_fst]
  rw [checkPos_testBit sane d2r home M env _ 1 (by omega),
    checkIas_testBit sane env _ 1 (by omega),
    checkBar_testBit sane env _ 1 (by omega),
    checkVel_testBit sane env _ 1 (by omega),
    checkMag_testBit sane env _ 1 (by omega)]
  have gbit : (checkGyr sane env ({ st0 with updated := u })).updated.testBit 1
      = u.testBit 1 := by
    rw [checkGyr_testBit sane env _ 1 (by omega)]
  have ebit : ISSET (checkGyr sane env ({ st0 with updated := u })).updated acc_UPDATED
      = u.testBit 1 := by
    have h1 : ISSET (checkGyr sane env ({ st0 with updated := u })).updated acc_UPDATED
        = (checkGyr sane env ({ st0 with updated := u })).updated.testBit 1 :=
      ISSET_two_pow _ 1
    rw [h1, gbit]
  have bself : (acc_UPDATED).testBit 1 = true := by decide
  unfold checkAcc SANITYCHECK3 saneVec3
  dsimp only
  rw [ebit]
  cases h1 : u.testBit 1 <;>
    cases h2 : sane env.accelSensor.1 && sane env.accelSensor.2.1 && sane env.accelSensor.2.2 <;>
    simp [h1, h2, gbit, testBit_UNSET, bself]

theorem cycle_mag (sane : ℚ → Bool) (d2r : ℚ) (env : SensorEnv)
    (home : HomeLocationData) (M : Vec3) (u : Nat) (st0 : stateEstimation) :
    (StateEstimationCb sane d2r env home M u st0).sensors.mag =
      if ISSET u mag_UPDATED && saneVec3 sane env.magnetoSensor then env.magnetoSensor
      else st0.mag := by
  simp only [StateEstimationCb, drainForCycle_fst]
  rw [checkPos_mag sane d2r home M env _,
    checkIas_mag sane env _,
    checkBar_mag sane env _,
    checkVel_mag sane env _]
  have efld : (checkAcc sane env (checkGyr sane env ({ st0 with updated := u }))).mag = st0.mag := by
    rw [checkAcc_mag sane env _,
      checkGyr_mag sane env _]
  have ebit : ISSET (checkAcc sane env (checkGyr sane env ({ st0 with updated := u }))).updated mag_UPDATED
      = ISSET u mag_UPDATED := by
    have h1 : ISSET (checkAcc sane env (checkGyr sane env ({ st0 with updated := u }))).updated mag_UPDATED
        = (checkAcc sane env (checkGyr sane env ({ st0 with updated := u }))).updated.testBit 2 :=
      ISSET_two_pow _ 2
    have h2 : ISSET u mag_UPDATED = u.testBit 2 := ISSET_two_pow u 2
    rw [h1, h2,
      checkAcc_testBit sane env _ 2 (by omega),
      checkGyr_testBit sane env _ 2 (by omega)]
  unfold checkMag SANITYCHECK3 saneVec3
  dsimp only
  rw [ebit, efld]
  cases h1 : ISSET u mag_UPDATED <;>
    cases h2 : sane env.magnetoSensor.1 && sane env.magnetoSensor.2.1 && sane env.magnetoSensor.2.2 <;>
    simp [h1, h2, efld]

theorem cycle_mag_bit (sane : ℚ → Bool) (d2r : ℚ) (env : SensorEnv)
    (home : HomeLocationData) (M : Vec3) (u : Nat) (st0 : stateEstimation) :
    ISSET (StateEstimationCb sane d2r env home M u st0).sensors.updated mag_UPDATED =
      (ISSET u mag_UPDATED && saneVec3 sane env.magnetoSensor) := by
  have hL : ISSET (StateEstimationCb sane d2r env home M u st0).sensors.updated mag_UPDATED
      = (StateEstimationCb sane d2r env home M u st0).sensors.updated.testBit 2 :=
    ISSET_two_pow _ 2
  have hR : ISSET u mag_UPDATED = u.testBit 2 := ISSET_two_pow u 2
  rw [hL, hR]
  simp only [StateEstimationCb, drainForCycle_fst]
  rw [checkPos_testBit sane d2r home M env _ 2 (by omega),
    checkIas_testBit sane env _ 2 (by omega),
    checkBar_testBit sane env _ 2 (by omega),
    checkVel_testBit sane env _ 2 (by omega)]
  have gbit : (checkAcc sane env (checkGyr sane env ({ st0 with updated := u }))).updated.testBit 2
      = u.testBit 2 := by
    rw [checkAcc_testBit sane env _ 2 (by omega),
      checkGyr_testBit sane env _ 2 (by omega)]
  have ebit : ISSET (checkAcc sane env (checkGyr sane env ({ st0 with updated := u }))).updated mag_UPDATED
      = u.testBit 2 := by
    have h1 : ISSET (checkAcc sane env (checkGyr sane env ({ st0 with updated := u }))).updated mag_UPDATED
        = (checkAcc sane env (checkGyr sane env ({ st0 with updated := u }))).updated.testBit 2 :=
      ISSET_two_pow _ 2
    rw [h1, gbit]
  have bself : (mag_UPDATED).testBit 2 = true := by decide
  unfold checkMag SANITYCHECK3 saneVec3
  dsimp only
  rw [ebit]
  cases h1 : u.testBit 2 <;>
    cases h2 : sane env.magnetoSensor.1 && sane env.magnetoSensor.2.1 && sane env.magnetoSensor.2.2 <;>
    simp [h1, h2, gbit, testBit_UNSET, bself]

theorem cycle_vel (sane : ℚ → Bool) (d2r : ℚ) (env : SensorEnv)
    (home : HomeLocationData) (M : Vec3) (u : Nat) (st0 : stateEstimation) :
    (StateEstimationCb sane d2r env home M u st0).sensors.vel =
      if ISSET u vel_UPDATED && saneVec3 sane env.gpsVelocity then env.gpsVelocity
      else st0.vel := by
  simp only [StateEstimationCb, drainForCycle_fst]
  rw [checkPos_vel sane d2r home M env _,
    checkIas_vel sane env _,
    checkBar_vel sane env _]
  have efld : (checkMag sane env (checkAcc sane env (checkGyr sane env ({ st0 with updated := u })))).vel = st0.vel := by
    rw [checkMag_vel sane env _,
      checkAcc_vel sane env _,
      checkGyr_vel sane env _]
  have ebit : ISSET (checkMag sane env (checkAcc sane env (checkGyr sane env ({ st0 with updated := u })))).updated vel_UPDATED
      = ISSET u vel_UPDATED := by
    have h1 : ISSET (checkMag sane env (checkAcc sane env (checkGyr sane env ({ st0 with updated := u })))).updated vel_UPDATED
        = (checkMag sane env (checkAcc sane env (checkGyr sane env ({ st0 with updated := u })))).updated.testBit 4 :=
      ISSET_two_pow _ 4
    have h2 : ISSET u vel_UPDATED = u.testBit 4 := ISSET_two_pow u 4
    rw [h1, h2,
      checkMag_testBit sane env _ 4 (by omega),
      checkAcc_testBit sane env _ 4 (by omega),
      checkGyr_testBit sane env _ 4 (by omega)]
  unfold checkVel SANITYCHECK3 saneVec3
  dsimp only
  rw [ebit, efld]
  cases h1 : ISSET u vel_UPDATED <;>
    cases h2 : sane env.gpsVelocity.1 && sane env.gpsVelocity.2.1 && sane env.gpsVelocity.2.2 <;>
    simp [h1, h2, efld]

theorem cycle_vel_bit (sane : ℚ → Bool) (d2r : ℚ) (env : SensorEnv)
    (home : HomeLocationData) (M : Vec3) (u : Nat) (st0 : stateEstimation) :
    ISSET (StateEstimationCb sane d2r env home M u st0).sensors.updated vel_UPDATED =
      (ISSET u vel_UPDATED && saneVec3 sane env.gpsVelocity) := by
  have hL : ISSET (StateEstimationCb sane d2r env home M u st0).sensors.updated vel_UPDATED
      = (StateEstimationCb sane d2r env home M u st0).sensors.updated.testBit 4 :=
    ISSET_two_pow _ 4
  have hR : ISSET u vel_UPDATED = u.testBit 4 := ISSET_two_pow u 4
  rw [hL, hR]
  simp only [StateEstimationCb, drainForCycle_fst]
  rw [checkPos_testBit sane d2r home M env _ 4 (by omega),
    checkIas_testBit sane env _ 4 (by omega),
    checkBar_testBit sane env _ 4 (by omega)]
  have gbit : (checkMag sane env (checkAcc sane env (checkGyr sane env ({ st0 with updated := u })))).updated.testBit 4
      = u.testBit 4 := by
    rw [checkMag_testBit sane env _ 4 (by omega),
      checkAcc_testBit sane env _ 4 (by omega),
      checkGyr_testBit sane env _ 4 (by omega)]
  have ebit : ISSET (checkMag sane env (checkAcc sane env (checkGyr sane env ({ st0 with updated := u })))).updated vel_UPDATED
      = u.testBit 4 := by
    have h1 : ISSET (checkMag sane env (checkAcc sane env (checkGyr sane env ({ st0 with updated := u })))).updated vel_UPDATED
        = (checkMag sane env (checkAcc sane env (checkGyr sane env ({ st0 with updated := u })))).updated.testBit 4 :=
      ISSET_two_pow _ 4
    rw [h1, gbit]
  have bself : (vel_UPDATED).testBit 4 = true := by decide
  unfold checkVel SANITYCHECK3 saneVec3
  dsimp only
  rw [ebit]
  cases h1 : u.testBit 4 <;>
    cases h2 : sane env.gpsVelocity.1 && sane env.gpsVelocity.2.1 && sane env.gpsVelocity.2.2 <;>
    simp [h1, h2, gbit, testBit_UNSET, bself]

theorem cycle_ias (sane : ℚ → Bool) (d2r : ℚ) (env : SensorEnv)
    (home : HomeLocationData) (M : Vec3) (u : Nat) (st0 : stateEstimation) :
    (StateEstimationCb sane d2r env home M u st0).sensors.ias =
      if ISSET u ias_UPDATED && (sane env.iasCalibratedAirspeed && env.iasSensorConnected) then env.iasCalibratedAirspeed
      else st0.ias := by
  simp only [StateEstimationCb, drainForCycle_fst]
  rw [checkPos_ias sane d2r home M env _]
  have efld : (checkBar sane env (checkVel sane env (checkMag sane env (checkAcc sane env (checkGyr sane env ({ st0 with updated := u })))))).ias = st0.ias := by
    rw [checkBar_ias sane env _,
      checkVel_ias sane env _,
      checkMag_ias sane env _,
      checkAcc_ias sane env _,
      checkGyr_ias sane env _]
  have ebit : ISSET (checkBar sane env (checkVel sane env (checkMag sane env (checkAcc sane env (checkGyr sane env ({ st0 with updated := u })))))).updated ias_UPDATED
      = ISSET u ias_UPDATED := by
    have h1 : ISSET (checkBar sane env (checkVel sane env (checkMag sane env (checkAcc sane env (checkGyr sane env ({ st0 with updated := u })))))).updated ias_UPDATED
        = (checkBar sane env (checkVel sane env (checkMag sane env (checkAcc sane env (checkGyr sane env ({ st0 with updated := u })))))).updated.testBit 6 :=
      ISSET_two_pow _ 6
    have h2 : ISSET u ias_UPDATED = u.testBit 6 := ISSET_two_pow u 6
    rw [h1, h2,
      checkBar_testBit sane env _ 6 (by omega),
      checkVel_testBit sane env _ 6 (by omega),
      checkMag_testBit sane env _ 6 (by omega),
      checkAcc_testBit sane env _ 6 (by omega),
      checkGyr_testBit sane env _ 6 (by omega)]
  unfold checkIas SANITYCHECK1
  dsimp only
  rw [ebit, efld]
  cases h1 : ISSET u ias_UPDATED <;>
    cases h2 : sane env.iasCalibratedAirspeed && env.iasSensorConnected <;>
    simp [h1, h2, efld]

theorem cycle_ias_bit (sane : ℚ → Bool) (d2r : ℚ) (env : SensorEnv)
    (home : HomeLocationData) (M : Vec3) (u : Nat) (st0 : stateEstimation) :
    ISSET (StateEstimationCb sane d2r env home M u st0).sensors.updated ias_UPDATED =
      (ISSET u ias_UPDATED && (sane env.iasCalibratedAirspeed && env.iasSensorConnected)) := by
  have hL : ISSET (StateEstimationCb sane d2r env home M u st0).sensors.updated ias_UPDATED
      = (StateEstimationCb sane d2r env home M u st0).sensors.updated.testBit 6 :=
    ISSET_two_pow _ 6
  have hR : ISSET u ias_UPDATED = u.testBit 6 := ISSET_two_pow u 6
  rw [hL, hR]
  simp only [StateEstimationCb, drainForCycle_fst]
  rw [checkPos_testBit sane d2r home M env _ 6 (by omega)]
  have gbit : (checkBar sane env (checkVel sane env (checkMag sane env (checkAcc sane env (checkGyr sane env ({ st0 with updated := u })))))).updated.testBit 6
      = u.testBit 6 := by
    rw [checkBar_testBit sane env _ 6 (by omega),
      checkVel_testBit sane env _ 6 (by omega),
      checkMag_testBit sane env _ 6 (by omega),
      checkAcc_testBit sane env _ 6 (by omega),
      checkGyr_testBit sane env _ 6 (by omega)]
  have ebit : ISSET (checkBar sane env (checkVel sane env (checkMag sane env (checkAcc sane env (checkGyr sane env ({ st0 with updated := u })))))).updated ias_UPDATED
      = u.testBit 6 := by
    have h1 : ISSET (checkBar sane env (checkVel sane env (checkMag sane env (checkAcc sane env (checkGyr sane env ({ st0 with updated := u })))))).updated ias_UPDATED
        = (checkBar sane env (checkVel sane env (checkMag sane env (checkAcc sane env (checkGyr sane env ({ st0 with updated := u })))))).updated.testBit 6 :=
      ISSET_two_pow _ 6
    rw [h1, gbit]
  have bself : (ias_UPDATED).testBit 6 = true := by decide
  unfold checkIas SANITYCHECK1
  dsimp only
  rw [ebit]
  cases h1 : u.testBit 6 <;>
    cases h2 : sane env.iasCalibratedAirspeed && env.iasSensorConnected <;>
    simp [h1, h2, gbit, testBit_UNSET, bself]

theorem cycle_pos (sane : ℚ → Bool) (d2r : ℚ) (env : SensorEnv)
    (home : HomeLocationData) (M : Vec3) (u : Nat) (st0 : stateEstimation) :
    (StateEstimationCb sane d2r env home M u st0).sensors.pos =
      if ISSET u pos_UPDATED && posAdmit sane home env.gpsPosition then getNED d2r home M env.gpsPosition
      else st0.pos := by
  simp only [StateEstimationCb, drainForCycle_fst]
  have efld : (checkIas sane env (checkBar sane env (checkVel sane env (checkMag sane env (checkAcc sane env (checkGyr sane env ({ st0 with updated := u }))))))).pos = st0.pos := by
    rw [checkIas_pos sane env _,
      checkBar_pos sane env _,
      checkVel_pos sane env _,
      checkMag_pos sane env _,
      checkAcc_pos sane env _,
      checkGyr_pos sane env _]
  have ebit : ISSET (checkIas sane env (checkBar sane env (checkVel sane env (checkMag sane env (checkAcc sane env (checkGyr sane env ({ st0 with updated := u }))))))).updated pos_UPDATED
      = ISSET u pos_UPDATED := by
    have h1 : ISSET (checkIas sane env (checkBar sane env (checkVel sane env (checkMag sane env (checkAcc sane env (checkGyr sane env ({ st0 with updated := u }))))))).updated pos_UPDATED
        = (checkIas sane env (checkBar sane env (checkVel sane env (checkMag sane env (checkAcc sane env (checkGyr sane env ({ st0 with updated := u }))))))).updated.testBit 3 :=
      ISSET_two_pow _ 3
    have h2 : ISSET u pos_UPDATED = u.testBit 3 := ISSET_two_pow u 3
    rw [h1, h2,
      checkIas_testBit sane env _ 3 (by omega),
      checkBar_testBit sane env _ 3 (by omega),
      checkVel_testBit sane env _ 3 (by omega),
      checkMag_testBit sane env _ 3 (by omega),
      checkAcc_testBit sane env _ 3 (by omega),
      checkGyr_testBit sane env _ 3 (by omega)]
  simp only [checkPos, positionCheck]
  rw [ebit, efld]
  rw [show (home.Set && sane env.gpsPosition.Latitude && sane env.gpsPosition.Longitude && sane env.gpsPosition.Altitude &&
        (decide (|env.gpsPosition.Latitude| > 1 / 100000) || decide (|env.gpsPosition.Latitude| > 1 / 100000) ||
         decide (|env.gpsPosition.Latitude| > 1 / 100000))) = posAdmit sane home env.gpsPosition from rfl]
  cases h1 : ISSET u pos_UPDATED <;>
    cases h2 : posAdmit sane home env.gpsPosition <;>
    simp [h1, h2, efld]

theorem cycle_pos_bit (sane : ℚ → Bool) (d2r : ℚ) (env : SensorEnv)
    (home : HomeLocationData) (M : Vec3) (u : Nat) (st0 : stateEstimation) :
    ISSET (StateEstimationCb sane d2r env home M u st0).sensors.updated pos_UPDATED =
      (ISSET u pos_UPDATED && posAdmit sane home env.gpsPosition) := by
  have hL : ISSET (StateEstimationCb sane d2r env home M u st0).sensors.updated pos_UPDATED
      = (StateEstimationCb sane d2r env home M u st0).sensors.updated.testBit 3 :=
    ISSET_two_pow _ 3
  have hR : ISSET u pos_UPDATED = u.testBit 3 := ISSET_two_pow u 3
  rw [hL, hR]
  simp only [StateEstimationCb, drainForCycle_fst]
  have gbit : (checkIas sane env (checkBar sane env (checkVel sane env (checkMag sane env (checkAcc sane env (checkGyr sane env ({ st0 with updated := u }))))))).updated.testBit 3
      = u.testBit 3 := by
    rw [checkIas_testBit sane env _ 3 (by omega),
      checkBar_testBit sane env _ 3 (by omega),
      checkVel_testBit sane env _ 3 (by omega),
      checkMag_testBit sane env _ 3 (by omega),
      checkAcc_testBit sane env _ 3 (by omega),
      checkGyr_testBit sane env _ 3 (by omega)]
  have ebit : ISSET (checkIas sane env (checkBar sane env (checkVel sane env (checkMag sane env (checkAcc sane env (checkGyr sane env ({ st0 with updated := u }))))))).updated pos_UPDATED
      = u.testBit 3 := by
    have h1 : ISSET (checkIas sane env (checkBar sane env (checkVel sane env (checkMag sane env (checkAcc sane env (checkGyr sane env ({ st0 with updated := u }))))))).updated pos_UPDATED
        = (checkIas sane env (checkBar sane env (checkVel sane env (checkMag sane env (checkAcc sane env (checkGyr sane env ({ st0 with updated := u }))))))).updated.testBit 3 :=
      ISSET_two_pow _ 3
    rw [h1, gbit]
  have bself : (pos_UPDATED).testBit 3 = true := by decide
  simp only [checkPos, positionCheck]
  rw [ebit]
  rw [show (home.Set && sane env.gpsPosition.Latitude && sane env.gpsPosition.Longitude && sane env.gpsPosition.Altitude &&
        (decide (|env.gpsPosition.Latitude| > 1 / 100000) || decide (|env.gpsPosition.Latitude| > 1 / 100000) ||
         decide (|env.gpsPosition.Latitude| > 1 / 100000))) = posAdmit sane home env.gpsPosition from rfl]
  cases h1 : u.testBit 3 <;>
    cases h2 : posAdmit sane home env.gpsPosition <;>
    simp [h1, h2, gbit, testBit_UNSET, bself]

/-! Helper lemmas about sensorUpdatedCb and the dirty set. -/

theorem sensorUpdatedCb_some (ev : UAVObjEvent) (u : Nat) :
    sensorUpdatedCb (some ev) u = (u ||| bitOf ev.obj, 1) := by
  obtain ⟨o⟩ := ev
  cases o <;> rfl

theorem bitOf_eq_two_pow (h : SensorObjHandle) : bitOf h = 2 ^ idxOf h := by
  cases h <;> rfl

theorem idxOf_injective (a b : SensorObjHandle) : idxOf a = idxOf b → a = b := by
  cases a <;> cases b <;> decide

theorem nat_and_or_self (a b : Nat) : a &&& (a ||| b) = a := by
  apply Nat.eq_of_testBit_eq
  intro i
  rw [Nat.testBit_and, Nat.testBit_or]
  cases a.testBit i <;> simp

theorem applyUpdates_testBit_false (es : List UAVObjEvent) (u : Nat) (i : Nat)
    (hu : u.testBit i = false) (hes : ∀ e ∈ es, idxOf e.obj ≠ i) :
    (applyUpdates es u).testBit i = false := by
  induction es generalizing u with
  | nil => exact hu
  | cons e es ih =>
    simp only [applyUpdates, List.foldl_cons]
    apply ih
    · rw [sensorUpdatedCb_some]
      dsimp only
      rw [Nat.testBit_or, hu, bitOf_eq_two_pow,
        Nat.testBit_two_pow_of_ne (hes e (by simp))]
      rfl
    · intro e2 he2
      exact hes e2 (by simp [he2])

/-! The claim theorems. -/

/-- C1: in every estimation cycle the snapshot is driven through every
filter unit of the chain strictly in chain order, so a write by an
earlier unit is visible to every later unit in the same cycle: traversal
of an appended chain is traversal of the first part followed by the
second, and for a chain of two filters where A writes field gyr and B
copies gyr to acc, after one cycle acc equals the value A wrote. -/
theorem filterChain_sequential_visibility :
    (∀ (c1 c2 : List stateFilter) (s : stateEstimation),
      runFilterChain (c1 ++ c2) s = runFilterChain c2 (runFilterChain c1 s)) ∧
    (∀ (sane : ℚ → Bool) (d2r : ℚ) (env : SensorEnv) (home : HomeLocationData)
      (M : Vec3) (u : Nat) (st0 : stateEstimation) (v : Vec3),
      (StateEstimationCbWithChain
        [{ init := fun _ => 0, update := fun st => ({ st with gyr := v }, 0) },
         { init := fun _ => 0, update := fun st => ({ st with acc := st.gyr }, 0) }]
        sane d2r env home M u st0).sensors.acc = v) := by
  constructor
  · intro c1 c2 s
    simp [runFilterChain, List.foldl_append]
  · intro sane d2r env home M u st0 v
    rfl

/-- C5: after one onSensorUpdated notification for a channel, the next
drain returns a mask containing that channel bit, and after that drain,
with any further notifications all touching other channels, the following
drain does not contain the bit: consumption is idempotent. -/
theorem drain_idempotent_consumption (ev : UAVObjEvent) (u0 : Nat)
    (es : List UAVObjEvent) (h : ∀ e ∈ es, e.obj ≠ ev.obj) :
    ISSET (drainForCycle ((sensorUpdatedCb (some ev) u0).1)).1 (bitOf ev.obj) = true ∧
    ISSET (drainForCycle (applyUpdates es
      (drainForCycle ((sensorUpdatedCb (some ev) u0).1)).2)).1 (bitOf ev.obj) = false := by
  constructor
  · rw [drainForCycle_fst, sensorUpdatedCb_some]
    dsimp only
    rw [bitOf_eq_two_pow, ISSET_two_pow, Nat.testBit_or, Nat.testBit_two_pow_self]
    simp
  · rw [drainForCycle_fst, drainForCycle_snd, bitOf_eq_two_pow, ISSET_two_pow]
    apply applyUpdates_testBit_false
    · exact Nat.zero_testBit _
    · intro e he hcontra
      exact h e he (idxOf_injective _ _ hcontra)

/-- Witness for C5: gyroscope updated once from an empty dirty set, one
unrelated accelerometer update in between; the gyro bit is drained once
and absent from the next drain. -/
theorem drain_idempotent_consumption_witness :
    ISSET (drainForCycle ((sensorUpdatedCb (some ⟨SensorObjHandle.gyroSensor⟩) 0).1)).1
      (bitOf SensorObjHandle.gyroSensor) = true ∧
    ISSET (drainForCycle (applyUpdates [⟨SensorObjHandle.accelSensor⟩]
      (drainForCycle ((sensorUpdatedCb (some ⟨SensorObjHandle.gyroSensor⟩) 0).1)).2)).1
      (bitOf SensorObjHandle.gyroSensor) = false :=
  drain_idempotent_consumption ⟨SensorObjHandle.gyroSensor⟩ 0
    [⟨SensorObjHandle.accelSensor⟩] (by decide)

/-- C10: a null event is a complete no-op (dirty set unchanged, no
dispatch); a non-null event ORs in exactly the bit of the channel whose
handle matches, never clears any bit (the old mask is contained in the
new one), and dispatches the estimation callback exactly once. -/
theorem sensorUpdatedCb_noop_and_or :
    (∀ u : Nat, sensorUpdatedCb none u = (u, 0)) ∧
    (∀ (ev : UAVObjEvent) (u : Nat),
      sensorUpdatedCb (some ev) u = (u ||| bitOf ev.obj, 1) ∧
      u &&& (u ||| bitOf ev.obj) = u) :=
  ⟨fun _ => rfl, fun ev u => ⟨sensorUpdatedCb_some ev u, nat_and_or_self u _⟩⟩

/-- C7: the health alarm is raised (with warning severity) at cycle start
if and only if the dirty set is empty at that moment, and it is cleared
at cycle end if and only if it was not raised during the cycle. -/
theorem alarm_raise_clear_policy (sane : ℚ → Bool) (d2r : ℚ) (env : SensorEnv)
    (home : HomeLocationData) (M : Vec3) (u : Nat) (st0 : stateEstimation) :
    ((StateEstimationCb sane d2r env home M u st0).alarmRaised = true ↔ u = 0) ∧
    ((StateEstimationCb sane d2r env home M u st0).alarmCleared = true ↔
      ¬(StateEstimationCb sane d2r env home M u st0).alarmRaised = true) := by
  constructor <;> simp [StateEstimationCb]

/-- C4: for each 3-component channel whose bit was drained, if all three
scalar components are sane the values are copied exactly and the channel
stays marked updated; if not, the bit is cleared and the snapshot field
keeps its prior content (fail-closed, no partial write). -/
theorem sanity3_fail_closed (sane : ℚ → Bool) (d2r : ℚ) (env : SensorEnv)
    (home : HomeLocationData) (M : Vec3) (u : Nat) (st0 : stateEstimation)
    (c : Chan3) (h : ISSET u (chan3Bit c) = true) :
    (saneVec3 sane (chan3Sample env c) = true →
      chan3Field (StateEstimationCb sane d2r env home M u st0).sensors c = chan3Sample env c ∧
      ISSET (StateEstimationCb sane d2r env home M u st0).sensors.updated (chan3Bit c) = true) ∧
    (saneVec3 sane (chan3Sample env c) = false →
      chan3Field (StateEstimationCb sane d2r env home M u st0).sensors c = chan3Field st0 c ∧
      ISSET (StateEstimationCb sane d2r env home M u st0).sensors.updated (chan3Bit c) = false) := by
  cases c
  case gyr =>
    simp only [chan3Bit] at h
    simp only [chan3Bit, chan3Sample, chan3Field, cycle_gyr, cycle_gyr_bit]
    constructor <;> intro hs <;> simp [h, hs]
  case acc =>
    simp only [chan3Bit] at h
    simp only [chan3Bit, chan3Sample, chan3Field, cycle_acc, cycle_acc_bit]
    constructor <;> intro hs <;> simp [h, hs]
  case mag =>
    simp only [chan3Bit] at h
    simp only [chan3Bit, chan3Sample, chan3Field, cycle_mag, cycle_mag_bit]
    constructor <;> intro hs <;> simp [h, hs]
  case vel =>
    simp only [chan3Bit] at h
    simp only [chan3Bit, chan3Sample, chan3Field, cycle_vel, cycle_vel_bit]
    constructor <;> intro hs <;> simp [h, hs]

/-- Witness for C4: gyroscope drained, all components sane, values copied
exactly and the bit kept. -/
theorem sanity3_fail_closed_witness :
    chan3Field (StateEstimationCb (fun _ => true) 1 envW homeW (0, 0, 0) 1 st0W).sensors
      Chan3.gyr = ((1 : ℚ), (2 : ℚ), (3 : ℚ)) ∧
    ISSET (StateEstimationCb (fun _ => true) 1 envW homeW (0, 0, 0) 1 st0W).sensors.updated
      (chan3Bit Chan3.gyr) = true := by
  have h := (sanity3_fail_closed (fun _ => true) 1 envW homeW (0, 0, 0) 1 st0W
    Chan3.gyr (by decide)).1 (by decide)
  exact ⟨h.1.trans rfl, h.2⟩

/-- C9: for a cycle that drained the airspeed bit, the airspeed sample is
admitted into the snapshot if and only if the calibrated airspeed is sane
and the sensor-connected status is true; otherwise the bit is cleared and
the field is untouched. -/
theorem airspeed_gating (sane : ℚ → Bool) (d2r : ℚ) (env : SensorEnv)
    (home : HomeLocationData) (M : Vec3) (u : Nat) (st0 : stateEstimation)
    (h : ISSET u ias_UPDATED = true) :
    ((sane env.iasCalibratedAirspeed && env.iasSensorConnected) = true →
      (StateEstimationCb sane d2r env home M u st0).sensors.ias = env.iasCalibratedAirspeed ∧
      ISSET (StateEstimationCb sane d2r env home M u st0).sensors.updated ias_UPDATED = true) ∧
    ((sane env.iasCalibratedAirspeed && env.iasSensorConnected) = false →
      (StateEstimationCb sane d2r env home M u st0).sensors.ias = st0.ias ∧
      ISSET (StateEstimationCb sane d2r env home M u st0).sensors.updated ias_UPDATED = false) := by
  simp only [cycle_ias, cycle_ias_bit]
  constructor <;> intro hs <;> simp [h, hs]

/-- Witness for C9: airspeed drained, sane and connected, value admitted
and bit kept. -/
theorem airspeed_gating_witness :
    (StateEstimationCb (fun _ => true) 1 envW homeW (0, 0, 0) ias_UPDATED st0W).sensors.ias
      = (20 : ℚ) ∧
    ISSET (StateEstimationCb (fun _ => true) 1 envW homeW (0, 0, 0) ias_UPDATED st0W).sensors.updated
      ias_UPDATED = true := by
  have h := (airspeed_gating (fun _ => true) 1 envW homeW (0, 0, 0) ias_UPDATED st0W
    (by decide)).1 (by decide)
  exact ⟨h.1.trans rfl, h.2⟩

/-- C2, the divergence of the code from the claim at a concrete input:
the home location is set, every scalar is sane (the sanity predicate is
constantly true), and the geodetic coordinate (0, 50 degrees, 100) has
non-zero magnitude, yet the cycle clears the position bit and leaves the
position field unwritten, because the C source tests fabsf(s.Latitude)
three times instead of Latitude, Longitude, Altitude. -/
theorem position_gate_latitude_bug :
    homeW.Set = true ∧
    ¬(envC2.gpsPosition.Latitude = 0 ∧ envC2.gpsPosition.Longitude = 0 ∧
      envC2.gpsPosition.Altitude = 0) ∧
    ISSET (StateEstimationCb (fun _ => true) 1 envC2 homeW (0, 0, 0) pos_UPDATED st0W).sensors.updated
      pos_UPDATED = false ∧
    (StateEstimationCb (fun _ => true) 1 envC2 homeW (0, 0, 0) pos_UPDATED st0W).sensors.pos
      = st0W.pos := by
  have hlat : ¬(|envC2.gpsPosition.Latitude| > (1 : ℚ) / 100000) := by
    norm_num [envC2, envW]
  have hpF : posAdmit (fun _ => true) homeW envC2.gpsPosition = false := by
    unfold posAdmit
    rw [decide_eq_false hlat]
    simp [homeW]
  refine ⟨rfl, by norm_num [envC2, envW], ?_, ?_⟩
  · rw [cycle_pos_bit, hpF]
    simp
  · rw [cycle_pos, hpF]
    simp

/-- C3 counterexample: a position whose latitude, longitude and altitude
all equal the home reference but whose geoid separation is 1 does not map
to (0, 0, 0): the third NED component is -1. -/
theorem getNED_home_roundtrip_counterexample :
    getNED 1 homeW (computeLLA2NEDM (fun _ => 1) 1 homeW)
      { Latitude := homeW.Latitude, Longitude := homeW.Longitude,
        Altitude := homeW.Altitude, GeoidSeparation := 1 }
      ≠ ((0 : ℚ), (0 : ℚ), (0 : ℚ)) := by
  intro hc
  have h3 := congrArg (fun p : Vec3 => p.2.2) hc
  simp only [getNED, computeLLA2NEDM, DEG2RAD, homeW] at h3
  norm_num at h3

/-- C3 amended: for every home reference and linearization matrix, a
position whose latitude, longitude and altitude equal the home reference
and whose geoid separation is zero maps to the NED vector (0, 0, 0). -/
theorem getNED_home_roundtrip_zero_geoid (d2r : ℚ) (home : HomeLocationData)
    (M : Vec3) (gps : GPSPositionData) (hlat : gps.Latitude = home.Latitude)
    (hlon : gps.Longitude = home.Longitude) (halt : gps.Altitude = home.Altitude)
    (hgeo : gps.GeoidSeparation = 0) :
    getNED d2r home M gps = ((0 : ℚ), (0 : ℚ), (0 : ℚ)) := by
  unfold getNED DEG2RAD
  rw [hlat, hlon, halt, hgeo]
  simp

/-- Witness for the amended C3 at the concrete home location. -/
theorem getNED_home_roundtrip_zero_geoid_witness :
    getNED 1 homeW ((9 : ℚ), (9 : ℚ), (9 : ℚ))
      { Latitude := homeW.Latitude, Longitude := homeW.Longitude,
        Altitude := homeW.Altitude, GeoidSeparation := 0 }
      = ((0 : ℚ), (0 : ℚ), (0 : ℚ)) :=
  getNED_home_roundtrip_zero_geoid 1 homeW (9, 9, 9)
    { Latitude := homeW.Latitude, Longitude := homeW.Longitude,
      Altitude := homeW.Altitude, GeoidSeparation := 0 } rfl rfl rfl rfl

/-- C6: with latitude and longitude stored in units of 1e-7 degree, the
code conversion getNED together with the matrix computed by
settingsUpdatedCb equals the formula stated by the spec: the elementwise
product of (dLat, dLon, dAlt) with (Rn, Rn cos(latHome), -1), Rn the
Earth mean radius 6.378137e6 plus home altitude. -/
theorem getNED_matches_linearization_formula (cosf : ℚ → ℚ) (d2r : ℚ)
    (latDeg lonDeg altPos geoid latHomeDeg lonHomeDeg altHome : ℚ)
    (hset : Bool) (Be : Vec3) :
    getNED d2r
      { Set := hset, Latitude := latHomeDeg * 10000000,
        Longitude := lonHomeDeg * 10000000, Altitude := altHome, Be := Be }
      (computeLLA2NEDM cosf d2r
        { Set := hset, Latitude := latHomeDeg * 10000000,
          Longitude := lonHomeDeg * 10000000, Altitude := altHome, Be := Be })
      { Latitude := latDeg * 10000000, Longitude := lonDeg * 10000000,
        Altitude := altPos, GeoidSeparation := geoid }
    = NED_claim cosf d2r latDeg lonDeg altPos geoid latHomeDeg altHome lonHomeDeg := by
  unfold getNED computeLLA2NEDM NED_claim DEG2RAD
  dsimp only
  have hcancel : latHomeDeg * 10000000 / 10000000 = latHomeDeg := by
    rw [mul_div_assoc]
    norm_num
  rw [hcancel]
  simp only [Prod.mk.injEq]
  refine ⟨?_, ?_, ?_⟩
  · field_simp
    ring
  · field_simp
    ring
  · ring

/-- C8: a home-reference update with any insane component among latitude,
longitude, altitude and the three magnetic components leaves the
linearization matrix unchanged; when all six are sane the matrix is
recomputed from the home location. -/
theorem settings_update_matrix_frame (sane : ℚ → Bool) (cosf : ℚ → ℚ) (d2r : ℚ)
    (home : HomeLocationData) (old : Vec3) :
    ((sane home.Latitude && sane home.Longitude && sane home.Altitude &&
      sane home.Be.1 && sane home.Be.2.1 && sane home.Be.2.2) = false →
      settingsUpdatedCb sane cosf d2r home old = old) ∧
    ((sane home.Latitude && sane home.Longitude && sane home.Altitude &&
      sane home.Be.1 && sane home.Be.2.1 && sane home.Be.2.2) = true →
      settingsUpdatedCb sane cosf d2r home old = computeLLA2NEDM cosf d2r home) := by
  unfold settingsUpdatedCb
  constructor <;> intro h <;> simp [h]

/-- Witness for C8: an insane latitude keeps the old matrix; an all-sane
home recomputes it. -/
theorem settings_update_matrix_frame_witness :
    settingsUpdatedCb (fun q => decide (q < 100)) (fun _ => 1) 1 homeW
      ((5 : ℚ), (6 : ℚ), (7 : ℚ)) = ((5 : ℚ), (6 : ℚ), (7 : ℚ)) ∧
    settingsUpdatedCb (fun _ => true) (fun _ => 1) 1 homeW
      ((5 : ℚ), (6 : ℚ), (7 : ℚ)) = computeLLA2NEDM (fun _ => 1) 1 homeW := by
  have hlat : ¬((homeW.Latitude : ℚ) < 100) := by norm_num [homeW]
  constructor
  · apply (settings_update_matrix_frame (fun q => decide (q < 100)) (fun _ => 1) 1 homeW
      (5, 6, 7)).1
    show (decide (homeW.Latitude < 100) && decide (homeW.Longitude < 100) &&
      decide (homeW.Altitude < 100) && decide (homeW.Be.1 < 100) &&
      decide (homeW.Be.2.1 < 100) && decide (homeW.Be.2.2 < 100)) = false
    rw [decide_eq_false hlat]
    simp
  · exact (settings_update_matrix_frame (fun _ => true) (fun _ => 1) 1 homeW
      (5, 6, 7)).2 (by decide)

end StateEst
